import Mathlib

/-!
Verification development for the EV charging network single-page application.

The development shallowly embeds the station discovery and filtering view model:
the `ChargingStation` data model, the search filter, the status-to-color maps,
the marker rendering effect, the popup selection bridge, the charging banner,
the access-token gating (all from MapView.tsx), and the QR scanner polling
state machine (from QRScanner.tsx). The application shell that holds the
active view, the selected station and the charging flag is not part of the
sources; it is modelled from the specification where a claim needs it.
-/

namespace EvCharging

/-- Station record, translated from the `ChargingStation` interface of
MapView.tsx (lines 6-17). Numeric display fields are embedded as rationals;
`status` is embedded as a plain string because the color helpers of the view
accept an arbitrary string and the runtime value is a string. -/
structure Station where
  id : String
  name : String
  address : String
  lat : Rat
  lng : Rat
  available : Nat
  total : Nat
  cost : Rat
  amenities : List String
  status : String
  deriving DecidableEq, Repr

/-- Character-wise model of JavaScript `String.prototype.toLowerCase` as used
by the search filter. -/
def jsToLower (s : String) : String :=
  ⟨s.data.map Char.toLower⟩

/-- Boolean test that `n` is a leading segment of `h`; the inner step of a
substring scan. -/
def isPrefixOfChars : List Char → List Char → Bool
  | [], _ => true
  | _ :: _, [] => false
  | a :: n, b :: h => a == b && isPrefixOfChars n h

/-- Boolean substring containment on character lists: scans every suffix of
the haystack for the needle, the behaviour of JavaScript `includes`. -/
def containsSub (needle : List Char) : List Char → Bool
  | [] => needle.isEmpty
  | c :: rest => isPrefixOfChars needle (c :: rest) || containsSub needle rest

/-- Model of JavaScript `hay.includes(needle)` on strings. -/
def jsIncludes (hay needle : String) : Bool :=
  containsSub needle.data hay.data

/-- Match predicate of the search filter, from MapView.tsx lines 166-169:
`station.name.toLowerCase().includes(searchQuery.toLowerCase()) ||
 station.address.toLowerCase().includes(searchQuery.toLowerCase())`. -/
def stationMatches (query : String) (st : Station) : Bool :=
  jsIncludes (jsToLower st.name) (jsToLower query) ||
    jsIncludes (jsToLower st.address) (jsToLower query)

/-- The `filteredStations` value of MapView.tsx lines 166-169:
`stations.filter(...)` with the name-or-address match predicate. -/
def filteredStations (stations : List Station) (query : String) : List Station :=
  stations.filter (stationMatches query)

/-- Map marker color expression from MapView.tsx lines 117-118:
`station.status === 'available' ? '#10B981' : station.status === 'busy' ?
'#F59E0B' : '#EF4444'`. -/
def markerColor (status : String) : String :=
  if status == "available" then "#10B981"
  else if status == "busy" then "#F59E0B"
  else "#EF4444"

/-- List badge color from `getStatusColor`, MapView.tsx lines 182-189. -/
def getStatusColor (status : String) : String :=
  if status == "available" then "text-green-600"
  else if status == "busy" then "text-orange-500"
  else if status == "offline" then "text-red-500"
  else "text-gray-500"

/-- Badge text from `getStatusText`, MapView.tsx lines 191-198. -/
def getStatusText (status : String) : String :=
  if status == "available" then "Available"
  else if status == "busy" then "Busy"
  else if status == "offline" then "Offline"
  else "Unknown"

/-- One rendered map marker: the data MapView.tsx lines 116-143 hand to the
mapping adapter for a station. -/
structure Marker where
  color : String
  lat : Rat
  lng : Rat
  stationId : String
  deriving DecidableEq, Repr

/-- Marker rendering effect of MapView.tsx lines 109-145: when the effect
fires on a non-empty `stations` prop it replaces all markers with one marker
per station of the full `stations` array (not of `filteredStations`). -/
def stationMarkers (stations : List Station) : List Marker :=
  stations.map (fun st => ⟨markerColor st.status, st.lat, st.lng, st.id⟩)

/-- Observable effects of the `window.selectStation` popup bridge. The code
can invoke the `onStationSelect` callback; the `notFoundReport` constructor
is the observation alphabet for a NotFound error report, which the
specification expects for an unknown id. -/
inductive SelectEffect where
  | stationSelect (st : Station)
  | notFoundReport (id : String)
  deriving DecidableEq, Repr

/-- The `window.selectStation` handler of MapView.tsx lines 154-159: it looks
the id up with `stations.find(s => s.id === stationId)` and calls
`onStationSelect(station)` only when found; an unknown id produces no effect
at all. -/
def windowSelectStation (stations : List Station) (stationId : String) :
    List SelectEffect :=
  match stations.find? (fun s => s.id == stationId) with
  | some st => [.stationSelect st]
  | none => []

/-- Content of the charging status banner. -/
structure BannerInfo where
  title : String
  stats : String
  deriving DecidableEq, Repr

/-- Charging banner of MapView.tsx lines 213-224: rendered exactly when
`isCharging` is true, with hardcoded text that never reads the selected
station. -/
def chargingBanner (isCharging : Bool) : Option BannerInfo :=
  if isCharging then
    some ⟨"Currently charging at Downtown Plaza", "45 min remaining • 78% charged"⟩
  else none

/-- The known placeholder value checked by MapView.tsx lines 229 and 239. -/
def placeholderToken : String := "your_mapbox_access_token_here"

/-- Token read of MapView.tsx line 34:
`import.meta.env.VITE_MAPBOX_ACCESS_TOKEN || ''`; an absent variable and an
empty one both yield the empty string. -/
def readAccessToken (env : Option String) : String :=
  env.getD ""

/-- Render condition of the `map-token-warning` block, MapView.tsx line 239:
`!mapboxgl.accessToken || mapboxgl.accessToken === 'your_mapbox_access_token_here'`
(a string is falsy exactly when empty). -/
def showTokenWarning (token : String) : Bool :=
  token == "" || token == placeholderToken

/-- Render condition of the normal `map-overlay` block, MapView.tsx line 229:
`mapboxgl.accessToken && mapboxgl.accessToken !== 'your_mapbox_access_token_here'`. -/
def showMapOverlay (token : String) : Bool :=
  !(token == "") && !(token == placeholderToken)

/-- Amenity tags shown on a station card, MapView.tsx line 290:
`station.amenities.slice(0, 3)`. -/
def displayedAmenities (amenities : List String) : List String :=
  amenities.take 3

/-- The optional overflow tag of MapView.tsx lines 293-295: rendered with
count `amenities.length - 3` exactly when `station.amenities.length > 3`. -/
def extraAmenitiesTag (amenities : List String) : Option Nat :=
  if 3 < amenities.length then some (amenities.length - 3) else none

/-- Component state of QRScanner.tsx: the `isScanning` and `error` React
states, whether the polling interval of `startScanning` is currently set
(`intervalActive`, the `intervalRef` holding a live interval), and whether
the component is still mounted. -/
structure ScannerState where
  isScanning : Bool
  error : Option String
  intervalActive : Bool
  mounted : Bool
  deriving DecidableEq, Repr

/-- Initial scanner component state: not scanning, no error, no interval. -/
def initScanner : ScannerState :=
  ⟨false, none, false, true⟩

/-- Error message set by the `onUserMediaError` handler, QRScanner.tsx line 92. -/
def camErrorMsg : String := "Camera access denied. Please enable camera permissions."

/-- Constant code delivered by `handleManualEntry`, QRScanner.tsx line 62. -/
def manualEntryCode : String := "EV-STATION-001-PORT-A"

/-- Events of the scanner component. A `tick` is one firing of the 300ms
interval; its payload is the decoded code when the frame held one, and `none`
for a missed screenshot or a decode miss. `unmount` is the component being
removed by navigating away. -/
inductive ScanEvent where
  | start
  | stop
  | tick (frame : Option String)
  | mediaError
  | manual
  | unmount
  deriving DecidableEq, Repr

/-- Step function of the scanner, translated clause by clause from
QRScanner.tsx. The second component is the code passed to the `onScan`
callback, when one is delivered. `startScanning` (lines 17-51) sets the
scanning flag, clears the error and installs the interval. `stopScanning`
(lines 53-58) clears the flag and the interval. A tick (lines 21-50) only
reaches the webcam when the interval is live and the `Webcam` element is
rendered, which requires `isScanning` and a mounted component; on a decoded
frame it clears the flag and the interval and delivers the code (lines
38-43). The `onUserMediaError` handler (lines 91-94) records the error and
clears the scanning flag but never clears the interval. The component has no
unmount cleanup, so `unmount` leaves the interval untouched.
`handleManualEntry` (lines 60-63) delivers the fixed constant without
touching any state. -/
def scannerStep (s : ScannerState) : ScanEvent → ScannerState × Option String
  | .start => ({ s with isScanning := true, error := none, intervalActive := true }, none)
  | .stop => ({ s with isScanning := false, intervalActive := false }, none)
  | .tick frame =>
      if s.intervalActive && s.isScanning && s.mounted then
        match frame with
        | some code => ({ s with isScanning := false, intervalActive := false }, some code)
        | none => (s, none)
      else (s, none)
  | .mediaError => ({ s with isScanning := false, error := some camErrorMsg }, none)
  | .manual => (s, some manualEntryCode)
  | .unmount => ({ s with mounted := false }, none)

/-- Modelled from the spec: the ApplicationView tag of the SelectionController
(section 4.3); the application shell component that owns it is not among the
sources. -/
inductive AppView where
  | discovery
  | detail
  | scanning
  | profile
  deriving DecidableEq, Repr

/-- Modelled from the spec: the SelectionController state of section 4.3 —
the active ApplicationView, the orthogonal `selectedStationId`, and the
ChargingSessionFlag read by the discovery banner; the owning shell component
is not among the sources. -/
structure AppState where
  view : AppView
  selectedStationId : Option String
  isCharging : Bool
  deriving DecidableEq, Repr

/-- Modelled from the spec: how the shell consumes one observable effect of
the popup bridge — `onStationSelect` performs the Discovery to Detail
transition setting `selectedStationId` (section 4.3), and on a NotFound
report the prior state is retained (section 7). -/
def applyEffect (app : AppState) : SelectEffect → AppState
  | .stationSelect st => ⟨.detail, some st.id, app.isCharging⟩
  | .notFoundReport _ => app

/-- Reaction of the application to `window.selectStation(id)`: the handler of
MapView.tsx runs and the shell, modelled from the spec, consumes whatever
effects it emits. -/
def selectStationApp (registry : List Station) (app : AppState) (id : String) :
    AppState :=
  (windowSelectStation registry id).foldl applyEffect app

/-- Modelled from the spec: the Detail to Scanning transition on
`startCharging()` with no side effect (section 4.3); the shell component is
not among the sources. -/
def startChargingApp (app : AppState) : AppState :=
  { app with view := .scanning }

/-- Modelled from the spec: the Scanning to Discovery transition on
`scanResult(code)` setting the ChargingSessionFlag active (section 4.3); the
shell component is not among the sources. The code payload is not inspected. -/
def scanResultApp (app : AppState) (_code : String) : AppState :=
  ⟨.discovery, app.selectedStationId, true⟩

/-- Concrete registry taken from the mock station data of the repository
test suite (MapView.test.tsx lines 30-67). -/
def demoStations : List Station :=
  [⟨"1", "Downtown Plaza", "123 Main St, Miami, FL", 257617/10000, -801918/10000,
    3, 4, 35/100, ["Restaurant", "WiFi", "Restroom"], "available"⟩,
   ⟨"2", "Airport Terminal", "2100 NW 42nd Ave, Miami, FL", 257959/10000, -802870/10000,
    0, 6, 42/100, ["Food Court", "Shopping"], "busy"⟩,
   ⟨"3", "Beach Resort", "1701 Collins Ave, Miami Beach, FL", 257907/10000, -801300/10000,
    2, 3, 38/100, ["Hotel", "Restaurant", "Valet"], "offline"⟩]

/-- Minimal station whose name and address hold no whitespace, for the
whitespace-query counterexample. -/
def plainStation : Station :=
  ⟨"p1", "A", "B", 0, 0, 1, 1, 0, [], "available"⟩

/-- Characterization of the prefix scan: it answers true exactly when the
needle is a leading segment of the haystack. -/
theorem isPrefixOfChars_iff (n : List Char) :
    ∀ h : List Char, isPrefixOfChars n h = true ↔ n <+: h := by
  induction n with
  | nil => intro h; simp [isPrefixOfChars]
  | cons a n ih =>
    intro h
    cases h with
    | nil => simp [isPrefixOfChars]
    | cons b t => simp [isPrefixOfChars, ih, List.cons_prefix_cons]

/-- Characterization of the substring scan: it answers true exactly when the
needle occurs contiguously inside the haystack. -/
theorem containsSub_iff (n : List Char) :
    ∀ h : List Char, containsSub n h = true ↔ n <:+: h := by
  intro h
  induction h with
  | nil => simp [containsSub, List.isEmpty_iff]
  | cons c t ih =>
    simp [containsSub, isPrefixOfChars_iff, ih, List.infix_cons_iff]

/-- C1: for every station list S and query q, the filter returns exactly the
stations of S whose lowercased name or lowercased address contains the
lowercased query as a contiguous substring, as an order-preserving
subsequence of S; when nothing matches the result is the empty list. -/
theorem C1_filter_correct (S : List Station) (q : String) :
    (filteredStations S q).Sublist S ∧
    ∀ st, st ∈ filteredStations S q ↔
      st ∈ S ∧ ((jsToLower q).data <:+: (jsToLower st.name).data ∨
                (jsToLower q).data <:+: (jsToLower st.address).data) := by
  refine ⟨ List.filter_sublist S, ?_⟩
  intro st
  simp [filteredStations, stationMatches, jsIncludes, containsSub_iff, List.mem_filter]

/-- C2 counterexample: a query of one space character is not the identity —
on a registry whose single station has no whitespace in its name or address
the filter drops the station, because the code never trims the query. -/
theorem C2_whitespace_not_identity :
    filteredStations [plainStation] " " = [] ∧
    ([plainStation] : List Station) ≠ [] := by
  constructor
  · rfl
  · simp

/-- C2 (amended): filtering with the empty query returns the input sequence
unchanged and in the same order. -/
theorem C2_empty_query_identity (S : List Station) :
    filteredStations S "" = S := by
  apply List.filter_eq_self.mpr
  intro st _
  have hd : (jsToLower "").data = ([] : List Char) := rfl
  simp [stationMatches, jsIncludes, containsSub_iff, hd]

/-- C3: evaluation at the failing inputs — after startScanning, a camera
permission error clears the scanning flag but leaves the 300ms interval
active, and unmounting mid-scan also leaves the interval active, because
neither path calls clearInterval. -/
theorem C3_scan_loop_not_cancelled :
    ((scannerStep (scannerStep initScanner .start).1 .mediaError).1.isScanning = false ∧
     (scannerStep (scannerStep initScanner .start).1 .mediaError).1.intervalActive = true) ∧
    (scannerStep (scannerStep initScanner .start).1 .unmount).1.intervalActive = true := by
  decide

/-- C4 counterexample: for an id absent from the registry the popup handler
produces no observable effect at all — in particular it emits no NotFound
report, contrary to the claim. -/
theorem C4_unknown_id_no_report :
    windowSelectStation demoStations "999" = [] ∧
    SelectEffect.notFoundReport "999" ∉ windowSelectStation demoStations "999" := by
  constructor
  · rfl
  · intro hmem
    simp [windowSelectStation, demoStations] at hmem

/-- C4 (amended): selectStation with an id not present in the registry
leaves the application view, the selection and the charging flag unchanged,
and is silently ignored — no effect, and no NotFound report, is produced. -/
theorem C4_unknown_id_state_unchanged (registry : List Station) (app : AppState)
    (id : String) (hid : ∀ st ∈ registry, st.id ≠ id) :
    selectStationApp registry app id = app ∧
    windowSelectStation registry id = [] := by
  have hfind : registry.find? (fun s => s.id == id) = none := by
    rw [ List.find?_eq_none]
    intro st hst
    simpa using hid st hst
  constructor
  · simp [selectStationApp, windowSelectStation, hfind]
  · simp [windowSelectStation, hfind]

/-- C4 witness: the amended theorem applied to the demo registry and the
initial application state with the unknown id 999. -/
theorem C4_witness :
    selectStationApp demoStations ⟨.discovery, none, false⟩ "999" =
      (⟨.discovery, none, false⟩ : AppState) ∧
    windowSelectStation demoStations "999" = [] :=
  C4_unknown_id_state_unchanged demoStations ⟨.discovery, none, false⟩ "999" (by decide)

/-- C5 counterexample: select station 3 (Beach Resort), start charging, and
accept a scan result; the charging flag is set and the selection is station
3, but the banner text is the hardcoded Downtown Plaza message, which does
not even mention the selected station name. -/
theorem C5_banner_not_from_selection :
    (scanResultApp
      (startChargingApp (selectStationApp demoStations ⟨.discovery, none, false⟩ "3"))
      "X") = (⟨.discovery, some "3", true⟩ : AppState) ∧
    (demoStations.find? (fun st => st.id == "3")).map Station.name = some "Beach Resort" ∧
    chargingBanner true =
      some ⟨"Currently charging at Downtown Plaza", "45 min remaining • 78% charged"⟩ ∧
    jsIncludes "Currently charging at Downtown Plaza" "Beach Resort" = false := by
  decide

/-- C5 (amended): an accepted scan result returns the application to
Discovery with the charging flag active and the selection retained, and the
discovery banner then shows the fixed hardcoded text — station name Downtown
Plaza with a 45 min / 78% estimate — independent of the selected station. -/
theorem C5_scan_sets_flag_banner_fixed (app : AppState) (code : String) :
    scanResultApp app code = ⟨.discovery, app.selectedStationId, true⟩ ∧
    chargingBanner true =
      some ⟨"Currently charging at Downtown Plaza", "45 min remaining • 78% charged"⟩ ∧
    chargingBanner false = none :=
  ⟨rfl, rfl, rfl⟩

/-- C6 counterexample: an unrecognized status value gives the map marker the
same red color as offline, not a neutral gray — the marker palette has no
gray at all; only the list badge helper maps unrecognized statuses to gray. -/
theorem C6_marker_unrecognized_red :
    markerColor "solar" = "#EF4444" ∧
    markerColor "offline" = "#EF4444" ∧
    getStatusColor "solar" = "text-gray-500" := by
  decide

/-- C6 (amended): the map marker color is a pure function of status mapping
available to green and busy to orange, and everything else — offline and any
unrecognized value alike — to red; the list badge color, separately, maps
unrecognized values to gray. -/
theorem C6_colors_by_status (s : String) (h1 : s ≠ "available") (h2 : s ≠ "busy")
    (h3 : s ≠ "offline") :
    markerColor "available" = "#10B981" ∧
    markerColor "busy" = "#F59E0B" ∧
    markerColor "offline" = "#EF4444" ∧
    markerColor s = "#EF4444" ∧
    getStatusColor s = "text-gray-500" := by
  refine ⟨rfl, rfl, rfl, ?_, ?_⟩
  · simp [markerColor, h1, h2]
  · simp [getStatusColor, h1, h2, h3]

/-- C6 witness: the amended theorem applied at the unrecognized status
string solar. -/
theorem C6_witness :
    markerColor "available" = "#10B981" ∧
    markerColor "busy" = "#F59E0B" ∧
    markerColor "offline" = "#EF4444" ∧
    markerColor "solar" = "#EF4444" ∧
    getStatusColor "solar" = "text-gray-500" :=
  C6_colors_by_status "solar" (by decide) (by decide) (by decide)

/-- C7 counterexample: with the demo registry and the query Downtown the
discovery list shows only station 1, while the markers handed to the map
adapter still cover all three stations of the full registry. -/
theorem C7_markers_not_filtered :
    (filteredStations demoStations "Downtown").map Station.id = ["1"] ∧
    (stationMarkers demoStations).map Marker.stationId = ["1", "2", "3"] ∧
    (["1", "2", "3"] : List String) ≠ ["1"] := by
  refine ⟨?_, rfl, by simp⟩
  rfl

/-- C7 (amended): whenever the marker effect fires on a non-empty station
list it hands the map adapter one marker per station of the full list, in
order and independent of the search query; only the discovery list shows the
filtered set. -/
theorem C7_markers_from_full_list (S : List Station) (_hne : S ≠ []) :
    (stationMarkers S).map Marker.stationId = S.map Station.id ∧
    (stationMarkers S).length = S.length := by
  simp [stationMarkers]

/-- C7 witness: the amended theorem applied to the non-empty demo registry. -/
theorem C7_witness :
    (stationMarkers demoStations).map Marker.stationId = demoStations.map Station.id ∧
    (stationMarkers demoStations).length = demoStations.length :=
  C7_markers_from_full_list demoStations (by decide)

/-- C8: with the token read as the environment value defaulted to the empty
string, the configuration-required warning is rendered exactly when the
variable is absent, empty, or the known placeholder, and the normal map
overlay is rendered exactly otherwise — the two render conditions are
complements, so no input crashes the map area. -/
theorem C8_token_gating (env : Option String) :
    (showTokenWarning (readAccessToken env) = true ↔
      env = none ∨ env = some "" ∨ env = some placeholderToken) ∧
    showMapOverlay (readAccessToken env) =
      !(showTokenWarning (readAccessToken env)) := by
  constructor
  · cases env with
    | none => simp [readAccessToken, showTokenWarning]
    | some s => simp [readAccessToken, showTokenWarning]
  · simp [showMapOverlay, showTokenWarning]

/-- C9: each station card shows at most the first three amenity tags in
order, and the overflow tag exists exactly when the station has more than
three amenities, in which case its count is the number of amenities minus
three. -/
theorem C9_amenities_display (a : List String) :
    displayedAmenities a <+: a ∧
    (displayedAmenities a).length = min 3 a.length ∧
    ∀ n, extraAmenitiesTag a = some n ↔ 3 < a.length ∧ n = a.length - 3 := by
  refine ⟨⟨a.drop 3, List.take_append_drop 3 a⟩, ?_, ?_⟩
  · simp [displayedAmenities]
  · intro n
    by_cases hlen : 3 < a.length <;> simp [extraAmenitiesTag, hlen, eq_comm]

/-- C10: the manual entry button always delivers the fixed constant code to
the onScan callback and changes no scanner state, whatever state the scanner
is in — scanning or not. -/
theorem C10_manual_entry_constant (s : ScannerState) :
    scannerStep s .manual = (s, some "EV-STATION-001-PORT-A") :=
  rfl

end EvCharging
